import Mathlib

/-!
Shallow embedding of the `grpc-devdb` device-info service (`src/main.rs`).

The service resolves a batch of device names against two database queries
per device: a scaling query (rows of type `RowInfo`) folded into a device
index, description and up to two `Property` values, and a digital-control
query (rows `(i32, String, String)`) collected into an ordered list of
`DigitalControlItem`.  Database streams are embedded as finite lists of
`Except String row`: `Except.ok r` is a successfully decoded row, while
`Except.error e` is a row the driver failed to decode, carrying the
rendered error message (the source formats the `sqlx::Error` with
`format!`).  Rust `i32` columns are embedded as `Int`, and the `as u32`
casts as reduction modulo `2 ^ 32`.
-/

namespace DevDB

/-- One decoded row of the scaling query (struct `RowInfo` in the source):
device index `di` and property index `pi` (both `i32`), the device
description and the primary/common unit texts. -/
structure RowInfo where
  di : Int
  pi : Int
  descr : String
  p_units : String
  c_units : String
deriving Repr, DecidableEq

/-- Protobuf message `Property`: the engineering-unit pair built from a
scaling row (fields are `optional` strings on the wire). -/
structure Property where
  primary_units : Option String
  common_units : Option String
deriving Repr, DecidableEq

/-- Protobuf message `DigitalControlItem`: one named discrete control state.
`value` is a `u32` on the wire, embedded as `Nat`. -/
structure DigitalControlItem where
  value : Nat
  short_name : String
  long_name : String
deriving Repr, DecidableEq

/-- Protobuf message `DigitalControl`: the ordered list of control items. -/
structure DigitalControl where
  cmds : List DigitalControlItem
deriving Repr, DecidableEq

/-- Protobuf message `DeviceInfo`: resolved metadata for one device. -/
structure DeviceInfo where
  index : Nat
  description : String
  reading : Option Property
  setting : Option Property
  dig_control : Option DigitalControl
deriving Repr, DecidableEq

namespace info_entry

/-- Protobuf oneof `info_entry::Result`: either resolved device metadata or
a per-device error message. -/
inductive Result where
  | Device : DeviceInfo → Result
  | ErrMsg : String → Result
deriving Repr, DecidableEq

end info_entry

/-- Protobuf message `InfoEntry`: the tagged result for one requested name.
`result` is an `optional` oneof on the wire, hence `Option`. -/
structure InfoEntry where
  name : String
  result : Option info_entry.Result
deriving Repr, DecidableEq

/-- Protobuf message `DeviceInfoReply`: the full batch reply (`set` field). -/
structure DeviceInfoReply where
  set : List InfoEntry
deriving Repr, DecidableEq

/-- Rust `v as u32` applied to an `i32` value: reinterpretation of the
signed value as unsigned, i.e. reduction modulo `2 ^ 32`. -/
def i32_as_u32 (v : Int) : Nat :=
  (v % (2 ^ 32 : Int)).toNat

/-- The local accumulator of `query_device` (`main.rs` lines 70-73):
`index`, `description`, `r_prop` and `s_prop` before/while the scaling rows
are consumed. -/
structure ScalingAcc where
  index : Nat
  description : String
  r_prop : Option Property
  s_prop : Option Property
deriving Repr, DecidableEq

/-- Initial accumulator values (`main.rs` lines 70-73): index 0, empty
description, no reading and no setting property. -/
def initAcc : ScalingAcc :=
  { index := 0, description := "", r_prop := none, s_prop := none }

/-- The `Property` built from a scaling row (`main.rs` lines 85-88). -/
def rowProp (row : RowInfo) : Property :=
  { primary_units := some row.p_units, common_units := some row.c_units }

/-- The body of the scaling loop for one successfully decoded row
(`main.rs` lines 79-99): overwrite `index` and `description`, then
overwrite `r_prop` when `pi == 12` and `s_prop` otherwise. -/
def applyRow (acc : ScalingAcc) (row : RowInfo) : ScalingAcc :=
  { index := i32_as_u32 row.di
    description := row.descr
    r_prop := if row.pi == 12 then some (rowProp row) else acc.r_prop
    s_prop := if row.pi == 12 then acc.s_prop else some (rowProp row) }

/-- The scaling `while let` loop (`main.rs` lines 77-110): fold the row
stream with `applyRow`; on the first row that fails to decode, stop and
propagate the error (the source returns the `ErrMsg` entry there). -/
def foldScaling : ScalingAcc → List (Except String RowInfo) → Except String ScalingAcc
  | acc, [] => Except.ok acc
  | acc, Except.ok row :: rest => foldScaling (applyRow acc row) rest
  | _, Except.error e :: _ => Except.error e

/-- The `DigitalControlItem` built from one decoded control row
(`main.rs` lines 122-126): `value as u32`, names copied. -/
def ctrlItem (row : Int × String × String) : DigitalControlItem :=
  { value := i32_as_u32 row.1, short_name := row.2.1, long_name := row.2.2 }

/-- The control `while let` loop (`main.rs` lines 114-134): push each
decoded row onto `cmds`; on the first decode failure, clear everything
collected so far and break (so the result is the empty list). -/
def collectControl : List DigitalControlItem → List (Except String (Int × String × String)) → List DigitalControlItem
  | cmds, [] => cmds
  | cmds, Except.ok row :: rest => collectControl (cmds ++ [ctrlItem row]) rest
  | _, Except.error _ :: _ => []

/-- `DevDB::query_device` (`main.rs` lines 63-152), with the two database
row streams for `item` passed explicitly: fold the scaling stream, return
the `ErrMsg` entry on a scaling decode error, otherwise collect the control
stream and build the `Device` entry (`dig_control` is `none` exactly when
the collected list is empty). -/
def query_device (item : String) (scaling : List (Except String RowInfo))
    (control : List (Except String (Int × String × String))) : InfoEntry :=
  match foldScaling initAcc scaling with
  | Except.error e => { name := item, result := some (info_entry.Result.ErrMsg e) }
  | Except.ok acc =>
      let cmds := collectControl [] control
      { name := item
        result := some (info_entry.Result.Device
          { index := acc.index
            description := acc.description
            reading := acc.r_prop
            setting := acc.s_prop
            dig_control := if cmds.isEmpty then none else some { cmds := cmds } }) }

/-- `query_device` instrumented with a flag recording whether the second
(control) database fetch was issued: the source reaches line 117 (building
the `BC_QUERY` fetch) only after the scaling loop finished without a decode
error, returning early at line 107 otherwise. -/
def query_device_traced (item : String) (scaling : List (Except String RowInfo))
    (control : List (Except String (Int × String × String))) : InfoEntry × Bool :=
  match foldScaling initAcc scaling with
  | Except.error e =>
      ({ name := item, result := some (info_entry.Result.ErrMsg e) }, false)
  | Except.ok acc =>
      let cmds := collectControl [] control
      ({ name := item
         result := some (info_entry.Result.Device
           { index := acc.index
             description := acc.description
             reading := acc.r_prop
             setting := acc.s_prop
             dig_control := if cmds.isEmpty then none else some { cmds := cmds } }) }, true)

/-- The database environment of the service: the two row streams each
device name resolves to (the two parameterized queries bound to `$1`). -/
structure Database where
  scaling : String → List (Except String RowInfo)
  control : String → List (Except String (Int × String × String))

/-- `DevDb::get_device_info` (`main.rs` lines 159-183): resolve every name
of the request's `device` list in order with `query_device` and return the
collected entries as the reply's `set` field. -/
def get_device_info (db : Database) (device : List String) : DeviceInfoReply :=
  { set := device.map fun item => query_device item (db.scaling item) (db.control item) }

/-! Helper lemmas about the two row-stream loops. -/

/-- Folding a stream of successfully decoded rows never fails and equals the
plain left fold of `applyRow`. -/
theorem foldScaling_map_ok (rows : List RowInfo) :
    ∀ acc : ScalingAcc, foldScaling acc (rows.map Except.ok) = Except.ok (rows.foldl applyRow acc) := by
  induction rows with
  | nil => intro acc; rfl
  | cons r rest ih => intro acc; simpa [foldScaling] using ih (applyRow acc r)

/-- Collecting a stream of successfully decoded control rows appends their
items, in order, to whatever was collected before. -/
theorem collectControl_map_ok (rows : List (Int × String × String)) :
    ∀ cmds, collectControl cmds (rows.map Except.ok) = cmds ++ rows.map ctrlItem := by
  induction rows with
  | nil => intro cmds; simp [collectControl]
  | cons r rest ih => intro cmds; simpa [collectControl] using ih (cmds ++ [ctrlItem r])

/-- If the control stream contains a row that fails to decode, the collected
list is empty, whatever was collected before the loop ran. -/
theorem collectControl_of_mem_error (control : List (Except String (Int × String × String))) :
    ∀ (cmds : List DigitalControlItem) (e : String), Except.error e ∈ control →
      collectControl cmds control = [] := by
  induction control with
  | nil => intro cmds e h; cases h
  | cons hd rest ih =>
      intro cmds e h
      cases hd with
      | error e2 => rfl
      | ok row =>
          apply ih (cmds ++ [ctrlItem row]) e
          cases h with
          | tail _ h2 => exact h2

/-- Characterization of the scaling fold on decoded rows: `index` and
`description` come from the last row (defaulting to the accumulator), the
reading property from the last row with `pi == 12`, and the setting property
from the last row with `pi != 12`. -/
theorem foldl_applyRow_eq (rows : List RowInfo) (acc : ScalingAcc) :
    rows.foldl applyRow acc =
      { index := ((rows.getLast?).map fun r => i32_as_u32 r.di).getD acc.index
        description := ((rows.getLast?).map RowInfo.descr).getD acc.description
        r_prop := ((rows.filter fun r => r.pi == 12).getLast?).elim acc.r_prop fun r => some (rowProp r)
        s_prop := ((rows.filter fun r => r.pi != 12).getLast?).elim acc.s_prop fun r => some (rowProp r) } := by
  induction rows using List.reverseRecOn with
  | nil => rfl
  | append_singleton l r ih =>
      rw [List.foldl_append, List.foldl_cons, List.foldl_nil, ih]
      by_cases h : r.pi = 12
      · simp [applyRow, h, List.filter_append, List.getLast?_concat]
      · simp [applyRow, h, List.filter_append, List.getLast?_concat]

/-! Claim theorems. -/

/-- C1: `get_device_info` returns one entry per requested name: the reply's
`set` has the same length as the input list, the entry at every position is
the independent resolution (`query_device`) of the name at that position, and
the empty input yields the empty reply. -/
theorem get_device_info_pointwise (db : Database) (device : List String) :
    (get_device_info db device).set.length = device.length ∧
    (∀ i : Nat, (get_device_info db device).set[i]? =
      (device[i]?).map fun n => query_device n (db.scaling n) (db.control n)) ∧
    get_device_info db [] = { set := [] } := by
  refine ⟨by simp [get_device_info], fun i => ?_, rfl⟩
  simp [get_device_info]

/-- C2: the entry's `result` is the `ErrMsg` variant iff the scaling stream
yielded a decode error; when the scaling fold succeeds, a decode error in the
control stream still produces the `Device` variant, with `dig_control`
degraded to `none`. -/
theorem errmsg_iff_scaling_decode_error (item : String)
    (scaling : List (Except String RowInfo))
    (control : List (Except String (Int × String × String))) :
    ((∃ e, (query_device item scaling control).result = some (info_entry.Result.ErrMsg e)) ↔
      (∃ e, foldScaling initAcc scaling = Except.error e)) ∧
    (∀ acc : ScalingAcc, foldScaling initAcc scaling = Except.ok acc →
      (∃ e, Except.error e ∈ control) →
      (query_device item scaling control).result = some (info_entry.Result.Device
        { index := acc.index, description := acc.description
          reading := acc.r_prop, setting := acc.s_prop, dig_control := none })) := by
  constructor
  · cases h : foldScaling initAcc scaling <;> simp [query_device, h]
  · intro acc hok he
    obtain ⟨e, he⟩ := he
    simp [query_device, hok, collectControl_of_mem_error control [] e he]

/-- C2 witness: a control-only decode error at a concrete input yields the
`Device` variant with `dig_control = none`, not an error entry. -/
theorem errmsg_iff_scaling_decode_error_witness :
    (query_device "D" [] [Except.error "bad"]).result =
      some (info_entry.Result.Device
        { index := 0, description := "", reading := none, setting := none, dig_control := none }) :=
  (errmsg_iff_scaling_decode_error "D" [] [Except.error "bad"]).2 initAcc rfl ⟨"bad", by simp⟩

/-- C3: the control query is issued exactly when the scaling fold succeeds;
on a scaling decode error the resolver returns the `ErrMsg` entry with the
control fetch never issued, and the traced resolver computes the same entry
as `query_device`. -/
theorem scaling_error_skips_control_query (item : String)
    (scaling : List (Except String RowInfo))
    (control : List (Except String (Int × String × String))) :
    ((query_device_traced item scaling control).1 = query_device item scaling control) ∧
    ((query_device_traced item scaling control).2 = true ↔
      ∃ acc, foldScaling initAcc scaling = Except.ok acc) ∧
    (∀ e, foldScaling initAcc scaling = Except.error e →
      query_device_traced item scaling control =
        ({ name := item, result := some (info_entry.Result.ErrMsg e) }, false)) := by
  refine ⟨?_, ?_, fun e he => ?_⟩
  · cases h : foldScaling initAcc scaling <;> simp [query_device, query_device_traced, h]
  · cases h : foldScaling initAcc scaling <;> simp [query_device_traced, h]
  · simp [query_device_traced, he]

/-- C3 witness: at a concrete input whose scaling stream fails to decode, the
traced resolver returns the error entry with the control-issued flag false. -/
theorem scaling_error_skips_control_query_witness :
    query_device_traced "D" [Except.error "oops"] [Except.ok (1, "s", "l")] =
      ({ name := "D", result := some (info_entry.Result.ErrMsg "oops") }, false) :=
  (scaling_error_skips_control_query "D" [Except.error "oops"] [Except.ok (1, "s", "l")]).2.2 "oops" rfl

/-- C4: folding a stream of successfully decoded scaling rows always
succeeds; the final `index` and `description` are those of the last row
(defaulting to 0 and "" on the empty stream), the reading property is built
from the last row with property index 12 and the setting property from the
last row with any other property index — earlier rows are overwritten, never
merged. -/
theorem scaling_fold_last_write_wins (rows : List RowInfo) :
    foldScaling initAcc (rows.map Except.ok) = Except.ok
      { index := ((rows.getLast?).map fun r => i32_as_u32 r.di).getD 0
        description := ((rows.getLast?).map RowInfo.descr).getD ""
        r_prop := ((rows.filter fun r => r.pi == 12).getLast?).map rowProp
        s_prop := ((rows.filter fun r => r.pi != 12).getLast?).map rowProp } := by
  rw [foldScaling_map_ok, foldl_applyRow_eq]
  cases hr : (rows.filter fun r => r.pi == 12).getLast? <;>
    cases hs : (rows.filter fun r => r.pi != 12).getLast? <;>
      simp [initAcc, hr, hs]

/-- C5: a decoded row with property index 12 overwrites the reading property
and any other property index overwrites the setting property; a single row
with property index 12 yields `reading = some` and `setting = none`. -/
theorem property_classification_by_pi (acc : ScalingAcc) (row : RowInfo) :
    ((applyRow acc row).r_prop = if row.pi = 12 then some (rowProp row) else acc.r_prop) ∧
    ((applyRow acc row).s_prop = if row.pi = 12 then acc.s_prop else some (rowProp row)) ∧
    (row.pi = 12 →
      foldScaling initAcc [Except.ok row] = Except.ok
        { index := i32_as_u32 row.di, description := row.descr
          r_prop := some (rowProp row), s_prop := none }) := by
  refine ⟨?_, ?_, fun h => ?_⟩
  · by_cases h : row.pi = 12 <;> simp [applyRow, h]
  · by_cases h : row.pi = 12 <;> simp [applyRow, h]
  · simp [foldScaling, applyRow, initAcc, h]

/-- C5 witness: a concrete single-row stream with property index 12 yields a
reading property and no setting property. -/
theorem property_classification_by_pi_witness :
    foldScaling initAcc
        [Except.ok { di := 5, pi := 12, descr := "d", p_units := "p", c_units := "c" }] =
      Except.ok
        { index := 5, description := "d"
          r_prop := some { primary_units := some "p", common_units := some "c" }
          s_prop := none } :=
  (property_classification_by_pi initAcc
    { di := 5, pi := 12, descr := "d", p_units := "p", c_units := "c" }).2.2 rfl

/-- C6: when the scaling fold succeeds and any control row fails to decode,
the entry is still the `Device` variant with `index`, `description`,
`reading` and `setting` from the scaling fold, and `dig_control = none` —
no partial control list survives. -/
theorem control_decode_error_discards_list (item : String)
    (scaling : List (Except String RowInfo))
    (control : List (Except String (Int × String × String))) (acc : ScalingAcc)
    (hs : foldScaling initAcc scaling = Except.ok acc)
    (he : ∃ e, Except.error e ∈ control) :
    query_device item scaling control =
      { name := item
        result := some (info_entry.Result.Device
          { index := acc.index, description := acc.description
            reading := acc.r_prop, setting := acc.s_prop, dig_control := none }) } := by
  obtain ⟨e, he⟩ := he
  simp [query_device, hs, collectControl_of_mem_error control [] e he]

/-- C6 witness: two valid control rows followed by a malformed one at a
concrete input — the control list is discarded while the scaling data
remains. -/
theorem control_decode_error_discards_list_witness :
    query_device "D" [Except.ok { di := 4, pi := 12, descr := "dsc", p_units := "pu", c_units := "cu" }]
        [Except.ok (1, "on", "ON"), Except.ok (2, "off", "OFF"), Except.error "bad"] =
      { name := "D"
        result := some (info_entry.Result.Device
          { index := 4, description := "dsc"
            reading := some { primary_units := some "pu", common_units := some "cu" }
            setting := none, dig_control := none }) } :=
  control_decode_error_discards_list "D" _ _
    { index := 4, description := "dsc"
      r_prop := some { primary_units := some "pu", common_units := some "cu" }, s_prop := none }
    rfl ⟨"bad", by simp⟩

/-- C7 counterexample: control item values are not copied unchanged — a row
value of `-1` (a negative `i32`) becomes `4294967295` in the entry, so the
claim as stated fails at this input. -/
theorem control_value_not_copied_unchanged :
    query_device "DEV" [] [Except.ok ((-1 : Int), "s", "l")] =
      { name := "DEV"
        result := some (info_entry.Result.Device
          { index := 0, description := "", reading := none, setting := none
            dig_control := some
              { cmds := [{ value := 4294967295, short_name := "s", long_name := "l" }] } }) } ∧
    ((4294967295 : Int) ≠ (-1 : Int)) := by
  constructor
  · rfl
  · decide

/-- C7 (amended): when the scaling fold succeeds and all `n ≥ 1` control rows
decode, `dig_control` is `some` of exactly the `n` items built 1:1 from the
rows in source order (no re-sorting), names copied unchanged and `value`
given by the `i32`-to-`u32` reinterpretation of the row value — equal to the
row value whenever it is non-negative; zero control rows yield `none`. -/
theorem control_ok_rows_order_preserved (item : String)
    (scaling : List (Except String RowInfo))
    (rows : List (Int × String × String)) (acc : ScalingAcc)
    (hs : foldScaling initAcc scaling = Except.ok acc) :
    (query_device item scaling (rows.map Except.ok) =
      { name := item
        result := some (info_entry.Result.Device
          { index := acc.index, description := acc.description
            reading := acc.r_prop, setting := acc.s_prop
            dig_control := if rows.isEmpty then none
                           else some { cmds := rows.map ctrlItem } }) }) ∧
    (∀ r ∈ rows, ((ctrlItem r).short_name = r.2.1 ∧ (ctrlItem r).long_name = r.2.2) ∧
      (0 ≤ r.1 → r.1 < 2 ^ 32 → ((ctrlItem r).value : Int) = r.1)) := by
  constructor
  · simp only [query_device, hs, collectControl_map_ok, List.nil_append]
    cases rows with
    | nil => rfl
    | cons r rest => simp
  · intro r _
    refine ⟨⟨rfl, rfl⟩, fun h1 h2 => ?_⟩
    simp only [ctrlItem, i32_as_u32]
    omega

/-- C7 witness: two decoded control rows at a concrete input produce a
two-item control list in source order. -/
theorem control_ok_rows_order_preserved_witness :
    query_device "D" [] [Except.ok (1, "a", "A"), Except.ok (0, "b", "B")] =
      { name := "D"
        result := some (info_entry.Result.Device
          { index := 0, description := "", reading := none, setting := none
            dig_control := some
              { cmds := [{ value := 1, short_name := "a", long_name := "A" },
                         { value := 0, short_name := "b", long_name := "B" }] } }) } := by
  have h := (control_ok_rows_order_preserved "D" [] [(1, "a", "A"), (0, "b", "B")] initAcc rfl).1
  simpa [ctrlItem, i32_as_u32, initAcc] using h

/-- C8: a device with no scaling rows and no control rows resolves to the
`Device` variant with index 0, empty description, no properties and no
control list; and whenever at least one scaling row is processed, the final
index and description come from the last row, so the defaults survive only
the empty stream. -/
theorem no_rows_yields_default_device (item : String) :
    (query_device item [] [] =
      { name := item
        result := some (info_entry.Result.Device
          { index := 0, description := "", reading := none, setting := none
            dig_control := none }) }) ∧
    (∀ (rows : List RowInfo) (r : RowInfo) (acc : ScalingAcc),
      foldScaling initAcc ((rows ++ [r]).map Except.ok) = Except.ok acc →
      acc.index = i32_as_u32 r.di ∧ acc.description = r.descr) := by
  constructor
  · rfl
  · intro rows r acc h
    rw [foldScaling_map_ok] at h
    simp only [Except.ok.injEq] at h
    subst h
    simp [List.foldl_append, applyRow]

/-- C8 witness: the second conjunct applied to the one-row stream
`[{di := 7, pi := 13, ...}]`. -/
theorem no_rows_yields_default_device_witness :
    (7 : Nat) = i32_as_u32 7 ∧ ("dd" : String) = "dd" :=
  (no_rows_yields_default_device "X").2 []
    { di := 7, pi := 13, descr := "dd", p_units := "p", c_units := "c" }
    { index := 7, description := "dd", r_prop := none
      s_prop := some { primary_units := some "p", common_units := some "c" } } rfl

/-- C9: on both the success and the error path, the entry's `name` equals the
requested name and its `result` is populated with exactly one variant. -/
theorem entry_name_and_result_populated (item : String)
    (scaling : List (Except String RowInfo))
    (control : List (Except String (Int × String × String))) :
    (query_device item scaling control).name = item ∧
    ∃ r, (query_device item scaling control).result = some r := by
  cases h : foldScaling initAcc scaling <;> simp [query_device, h]

/-- C10: the device index and each control item value are the signed 32-bit
database value reduced modulo `2 ^ 32`: a non-negative value maps to itself
and a negative value `v` maps to `v + 2 ^ 32`, never to an error. -/
theorem index_and_value_u32_reinterpretation (v : Int) (acc : ScalingAcc)
    (row : RowInfo) (t : Int × String × String) :
    ((applyRow acc row).index = i32_as_u32 row.di) ∧
    ((ctrlItem t).value = i32_as_u32 t.1) ∧
    (0 ≤ v → v < 2 ^ 32 → (i32_as_u32 v : Int) = v) ∧
    (-(2 ^ 31) ≤ v → v < 0 → (i32_as_u32 v : Int) = v + 2 ^ 32) := by
  refine ⟨rfl, rfl, fun h1 h2 => ?_, fun h1 h2 => ?_⟩ <;>
    · simp only [i32_as_u32]
      omega

/-- C10 witness: the negative branch at `v = -3` gives `2 ^ 32 - 3`. -/
theorem index_and_value_u32_reinterpretation_witness :
    (i32_as_u32 (-3) : Int) = -3 + 2 ^ 32 :=
  (index_and_value_u32_reinterpretation (-3) initAcc
    { di := 0, pi := 0, descr := "", p_units := "", c_units := "" }
    (0, "", "")).2.2.2 (by norm_num) (by norm_num)

end DevDB
